import Mathlib

/-!
Verification of the `setup-zig` GitHub action against its natural-language
specification.  The JavaScript sources (`common.js`, `minisign.js`, `post.js`
and the main action module) are shallowly embedded below: buffers become
`List Nat` (byte values), strings become `String`/`List Char`, the handful of
regular expressions are translated into explicit deterministic scanners
(each one is backtracking-free, which is justified in the comments), and all
I/O collaborators (network, blob cache, file system, ed25519) become explicit
oracle parameters.  JavaScript quirks that the code relies on — `parseInt` on
a dotted string, `null` coercing to `0` under `<`, `Buffer.subarray` clamping
and negative indices, the truthiness of an un-`await`ed `Promise` — are
modelled explicitly and faithfully.
-/

/-- Bytes of an ASCII string (the sources only ever compare ASCII data). -/
def strBytes (s : String) : List Nat := s.data.map Char.toNat

/-- Decidable equality for `Except`, used to evaluate embedded fallible code. -/
instance {ε α : Type} [DecidableEq ε] [DecidableEq α] : DecidableEq (Except ε α) := fun a b =>
  match a, b with
  | .ok x, .ok y => if h : x = y then isTrue (h ▸ rfl) else isFalse fun hc => h (Except.ok.inj hc)
  | .error x, .error y =>
      if h : x = y then isTrue (h ▸ rfl) else isFalse fun hc => h (Except.error.inj hc)
  | .ok _, .error _ => isFalse Except.noConfusion
  | .error _, .ok _ => isFalse Except.noConfusion

/-- Whether `haystack` contains `needle` as a contiguous sublist
(JavaScript `String.prototype.includes`). -/
def listContains (haystack needle : List Nat) : Bool :=
  match haystack with
  | [] => needle.isEmpty
  | _ :: rest => needle.isPrefixOf haystack || listContains rest needle

/-- Resolve one index argument of `Buffer.subarray`: negative values count from
the end, and everything is clamped into `[0, len]`. -/
def resolveIdx (len : Nat) (i : Int) : Nat :=
  if i < 0 then ((len : Int) + i).toNat else min i.toNat len

/-- JavaScript `buf.subarray(s, e)` with full JavaScript index semantics. -/
def jsSubarray (buf : List Nat) (s e : Int) : List Nat :=
  (buf.take (resolveIdx buf.length e)).drop (resolveIdx buf.length s)

/-- JavaScript `buf.subarray(s)` (to the end of the buffer). -/
def jsSubFrom (buf : List Nat) (s : Int) : List Nat :=
  jsSubarray buf s (buf.length : Int)

/-- JavaScript `buf.indexOf(b)`: index of the first occurrence, or `-1`. -/
def bufIndexOf (buf : List Nat) (b : Nat) : Int :=
  match buf.findIdx? (· = b) with
  | some i => (i : Int)
  | none => -1

/-- Value of one base64 alphabet character; `none` for characters outside the
alphabet (Node's decoder skips those, as does `=` padding). -/
def b64Val (c : Nat) : Option Nat :=
  if 65 ≤ c ∧ c ≤ 90 then some (c - 65)
  else if 97 ≤ c ∧ c ≤ 122 then some (c - 71)
  else if 48 ≤ c ∧ c ≤ 57 then some (c + 4)
  else if c = 43 then some 62
  else if c = 47 then some 63
  else none

/-- Reassemble decoded 6-bit groups into bytes (lenient tail handling,
matching Node's `Buffer.from(_, 'base64')`). -/
def b64Bytes : List Nat → List Nat
  | a :: b :: c :: d :: rest =>
      (a * 4 + b / 16) :: ((b % 16) * 16 + c / 4) :: ((c % 4) * 64 + d) :: b64Bytes rest
  | [a, b] => [a * 4 + b / 16]
  | [a, b, c] => [a * 4 + b / 16, (b % 16) * 16 + c / 4]
  | _ => []

/-- Node's `Buffer.from(str, 'base64')` on a byte string. -/
def base64Decode (l : List Nat) : List Nat := b64Bytes (l.filterMap b64Val)

/-! ## `common.js` — version parsing and ordering

the source's `parseVersion` applies `/^(\d+)\.(\d+)\.(\d+)(?:-dev\.(\d+)\+[0-9a-f]*)?$/`
and then reads `match[0]`, `match[1]`, `match[2]`, `match[3]` — i.e. the full
match and capture groups 1–3 — for `major`/`minor`/`patch`/`dev`. -/

/-- Lowercase-hex predicate for the `[0-9a-f]*` tail of a dev version. -/
def isHexLower (c : Char) : Bool := c.isDigit || ('a' ≤ c && c ≤ 'f')

/-- The capture groups of `/^(\d+)\.(\d+)\.(\d+)(?:-dev\.(\d+)\+[0-9a-f]*)?$/`.
Every quantifier in the pattern is effectively possessive (each `\d+` is
followed by a non-digit literal), so a deterministic scan is equivalent to
the backtracking regex engine. -/
def regexVersionGroups (s : List Char) :
    Option (List Char × List Char × List Char × Option (List Char)) :=
  let (g1, r1) := s.span Char.isDigit
  if g1.isEmpty then none else
  match r1 with
  | '.' :: r2 =>
    let (g2, r3) := r2.span Char.isDigit
    if g2.isEmpty then none else
    match r3 with
    | '.' :: r4 =>
      let (g3, r5) := r4.span Char.isDigit
      if g3.isEmpty then none else
      match r5 with
      | [] => some (g1, g2, g3, none)
      | '-' :: 'd' :: 'e' :: 'v' :: '.' :: r6 =>
        let (g4, r7) := r6.span Char.isDigit
        if g4.isEmpty then none else
        match r7 with
        | '+' :: r8 => if r8.all isHexLower then some (g1, g2, g3, some g4) else none
        | _ => none
      | _ => none
    | _ => none
  | _ => none

/-- Numeric value of a digit string. -/
def natOfDigits (l : List Char) : Nat := l.foldl (fun a c => a * 10 + (c.toNat - 48)) 0

/-- JavaScript `parseInt` on a string that begins with a digit: the value of
its leading digit run. -/
def jsParseIntLeading (l : List Char) : Nat := natOfDigits (l.takeWhile Char.isDigit)

/-- The object returned by `parseVersion` (`common.js` lines 300–312).  `dev`
is an `Option` because the source compares it against `null`. -/
structure ParsedVersion where
  major : Nat
  minor : Nat
  patch : Nat
  dev : Option Nat
deriving DecidableEq

/-- The function `parseVersion` (`common.js` lines 303–312).  The source reads
`match[0]` (the full match), `match[1]` (group 1 = the MAJOR digits),
`match[2]` (group 2 = the MINOR digits) and `match[3]` (group 3 = the PATCH
digits, which participates in every successful match, hence is never null);
capture group 4 (the dev index) is never read. -/
def parseVersion (str : String) : Option ParsedVersion :=
  match regexVersionGroups str.data with
  | none => none
  | some (g1, g2, g3, _g4) =>
      some { major := jsParseIntLeading str.data   -- parseInt(match[0])
             minor := natOfDigits g1              -- parseInt(match[1])
             patch := natOfDigits g2              -- parseInt(match[2])
             dev := some (natOfDigits g3) }       -- match[3] === null ? null : parseInt(match[3])

/-- JavaScript `<` on `number | null` operands (`null` coerces to `0`). -/
def jsLtNum (a b : Option Nat) : Bool := a.getD 0 < b.getD 0

/-- The function `versionLessThan` (`common.js` lines 286–298).  The locals `cur_dev` and
`min_dev` (the `Infinity` treatment of non-dev releases) are computed by the
source but never used: the final comparison reads `cur.dev < min.dev`. -/
def versionLessThan (cur_ver min_ver : String) : Bool :=
  match parseVersion cur_ver, parseVersion min_ver with
  | some cur, some min =>
      if cur.major ≠ min.major then decide (cur.major < min.major)
      else if cur.minor ≠ min.minor then decide (cur.minor < min.minor)
      else if cur.patch ≠ min.patch then decide (cur.patch < min.patch)
      else jsLtNum cur.dev min.dev
  | _, _ => false

/-! ## `common.js` — target naming (`getTarballName`, lines 233–281) -/

/-- The `os.arch()` values recognised by the arch lookup table. -/
inductive NodeArch
  | arm | arm64 | loong64 | mips | mipsel | mips64 | mips64el | ppc64
  | riscv64 | s390x | ia32 | x64
deriving DecidableEq

/-- The `os.platform()` values recognised by the platform lookup table. -/
inductive NodePlatform
  | android | freebsd | sunos | linux | darwin | netbsd | openbsd | win32
deriving DecidableEq

/-- The value of `os.endianness()`. -/
inductive Endianness
  | BE | LE
deriving DecidableEq

/-- The arch lookup table (`common.js` lines 236–249). -/
def archTable : NodeArch → String
  | .arm => "arm"
  | .arm64 => "aarch64"
  | .loong64 => "loongarch64"
  | .mips => "mips"
  | .mipsel => "mipsel"
  | .mips64 => "mips64"
  | .mips64el => "mips64el"
  | .ppc64 => "powerpc64"
  | .riscv64 => "riscv64"
  | .s390x => "s390x"
  | .ia32 => "x86"
  | .x64 => "x86_64"

/-- The ppc64le disambiguation (`common.js` lines 254–256). -/
def archNameEndianFix (arch : String) (e : Endianness) : String :=
  if arch = "powerpc64" ∧ e = Endianness.LE then "powerpc64le" else arch

/-- The pre-0.15.1 `armv7a` spelling (`common.js` lines 258–261). -/
def archNameLegacyFix (arch : String) (version : String) : String :=
  if arch = "arm" ∧ versionLessThan version "0.15.1" = true then "armv7a" else arch

/-- The fully adjusted arch token used in the tarball name. -/
def archName (a : NodeArch) (e : Endianness) (version : String) : String :=
  archNameLegacyFix (archNameEndianFix (archTable a) e) version

/-- The platform lookup table (`common.js` lines 263–272). -/
def platformTable : NodePlatform → String
  | .android => "android"
  | .freebsd => "freebsd"
  | .sunos => "illumos"
  | .linux => "linux"
  | .darwin => "macos"
  | .netbsd => "netbsd"
  | .openbsd => "openbsd"
  | .win32 => "windows"

/-- The function `getTarballName` (`common.js` lines 233–281), as a function of the host
facts and the resolved version. -/
def getTarballName (a : NodeArch) (e : Endianness) (p : NodePlatform) (version : String) :
    String :=
  let arch := archName a e version
  let platform := platformTable p
  if versionLessThan version "0.15.0-dev.631+9a3540d61" && versionLessThan version "0.14.1" then
    "zig-" ++ platform ++ "-" ++ arch ++ "-" ++ version
  else
    "zig-" ++ arch ++ "-" ++ platform ++ "-" ++ version

/-! ## `minisign.js` — key and signature parsing, verification -/

/-- A parsed minisign public key (`parseKey`'s return value). -/
structure PubKey where
  id : List Nat
  key : List Nat
deriving DecidableEq

/-- The function `parseKey` (`minisign.js` lines 6–20). -/
def parseKey (key_str : String) : Except String PubKey :=
  let key_info := base64Decode (strBytes key_str)
  let id := jsSubarray key_info 2 10
  let key := jsSubFrom key_info 10
  if key.length ≠ 32 then .error "invalid public key given"
  else .ok { id := id, key := key }

/-- A parsed minisign signature file (`parseSignature`'s return value). -/
structure SigRecord where
  algorithm : List Nat
  key_id : List Nat
  signature : List Nat
  trusted_comment : List Nat
  global_signature : List Nat
deriving DecidableEq

/-- The function `parseSignature` (`minisign.js` lines 24–76).  Note that the source's
final skip (line 62) advances by `sig_info_end + 1` — the length of the
signature-info line — rather than by `global_sig_end + 1`, and the
trailing-bytes check at line 65 runs on the result of that skip. -/
def parseSignature (sig_buf0 : List Nat) : Except String SigRecord :=
  let untrusted_header := strBytes "untrusted comment: "
  let trusted_header := strBytes "trusted comment: "
  if jsSubarray sig_buf0 0 (untrusted_header.length : Int) ≠ untrusted_header then
    .error "invalid minisign signature: bad untrusted comment header"
  else
    let b1 := jsSubFrom sig_buf0 (untrusted_header.length : Int)
    let b2 := jsSubFrom b1 (bufIndexOf b1 10 + 1)
    let sig_info_end := bufIndexOf b2 10
    let sig_info := base64Decode (jsSubarray b2 0 sig_info_end)
    let b3 := jsSubFrom b2 (sig_info_end + 1)
    let algorithm := jsSubarray sig_info 0 2
    let key_id := jsSubarray sig_info 2 10
    let signature := jsSubFrom sig_info 10
    if jsSubarray b3 0 (trusted_header.length : Int) ≠ trusted_header then
      .error "invalid minisign signature: bad trusted comment header"
    else
      let b4 := jsSubFrom b3 (trusted_header.length : Int)
      let trusted_comment_end := bufIndexOf b4 10
      let trusted_comment := jsSubarray b4 0 trusted_comment_end
      let b5 := jsSubFrom b4 (trusted_comment_end + 1)
      let gse0 := bufIndexOf b5 10
      let global_sig_end := if gse0 = -1 then (b5.length : Int) else gse0
      let global_sig := base64Decode (jsSubarray b5 0 global_sig_end)
      let b6 := jsSubFrom b5 (sig_info_end + 1)
      if b6.length ≠ 0 then .error "invalid minisign signature: trailing bytes"
      else .ok { algorithm := algorithm, key_id := key_id, signature := signature,
                 trusted_comment := trusted_comment, global_signature := global_sig }

/-- A JavaScript `Promise` object holding the value an `await` would yield. -/
structure JsPromise (α : Type) where
  val : α
deriving DecidableEq

/-- As an object, a `Promise` is always truthy, whatever it resolves to. -/
def JsPromise.jsTruthy {α : Type} (_ : JsPromise α) : Bool := true

/-- The ed25519 primitive (`verify` from `@noble/ed25519`), abstracted:
arguments are (signature, message, public key).  A `throw` inside the real
primitive is absorbed by the source's `try`/`catch`, so a total `Bool`-valued
oracle is faithful. -/
def Ed25519Verify : Type := List Nat → List Nat → List Nat → Bool

/-- The 64-byte BLAKE2b digest primitive, abstracted. -/
def Blake2b512 : Type := List Nat → List Nat

/-- The function `verifySignature` (`minisign.js` lines 81–112).  The source is an `async`
function: its JavaScript value is a `Promise`. -/
def verifySignature (verify : Ed25519Verify) (blake2b : Blake2b512)
    (pubkey : PubKey) (signature : SigRecord) (file_content : List Nat) : JsPromise Bool :=
  ⟨if signature.key_id ≠ pubkey.id then false
   else
     let signed_content :=
       if signature.algorithm = strBytes "ED" then blake2b file_content else file_content
     if verify signature.signature signed_content pubkey.key = false then false
     else if verify signature.global_signature
               (signature.signature ++ signature.trusted_comment) pubkey.key = false then false
     else true⟩

/-! ## Main action module — `downloadFromMirror`, `downloadTarball`,
`retrieveTarball` -/

/-- The hardcoded minisign trust anchor. -/
def MINISIGN_KEY : String := "RWSGOq2NVecA2UPNdBUZykf1CCb147pkmdtYxgb3Ti+JO/wCYvhbAb/U"

/-- The canonical origin used as last-resort fallback. -/
def CANONICAL : String := "https://ziglang.org/builds"

/-- What a mirror served for one artifact: the local path `tc.downloadTool`
stored the tarball at, the signature file's bytes, and the tarball's bytes. -/
structure MirrorResponse where
  tarballPath : String
  signatureData : List Nat
  tarballData : List Nat
deriving DecidableEq

/-- The network, abstracted: what each (mirror, artifact filename) pair
yields; `none` models a network failure of the tarball download or the
signature fetch. -/
def Network : Type := String → String → Option MirrorResponse

/-- Errors thrown along the download pipeline. -/
inductive DlError
  | download
  | parse (msg : String)
  | signatureVerificationFailed
  | filenameVerificationFailed
  | forbiddenMirrorOverride
deriving DecidableEq

/-- Byte-level character classes of the JavaScript regex escapes `\s`/`\d`
(the data compared is ASCII). -/
def isWsByte (c : Nat) : Bool := c = 32 || c = 9 || c = 10 || c = 11 || c = 12 || c = 13

/-- The class `\d` on a byte. -/
def isDigitByte (c : Nat) : Bool := 48 ≤ c && c ≤ 57

/-- Strip an expected literal prefix. -/
def dropLiteral? (p l : List Nat) : Option (List Nat) :=
  if p.isPrefixOf l then some (l.drop p.length) else none

/-- Evaluation of `/^timestamp:\d+\s+file:([^\s]+)\s+hashed$/.exec(trusted_comment)`,
returning capture group 1 (`main` module line 37).  Every quantifier's
character class is disjoint from the literal that follows it, so greedy
scanning without backtracking is equivalent to the regex engine. -/
def trustedCommentFile (tc : List Nat) : Option (List Nat) :=
  match dropLiteral? (strBytes "timestamp:") tc with
  | none => none
  | some r1 =>
    let (ds, r2) := r1.span isDigitByte
    if ds.isEmpty then none else
    let (ws1, r3) := r2.span isWsByte
    if ws1.isEmpty then none else
    match dropLiteral? (strBytes "file:") r3 with
    | none => none
    | some r4 =>
      let (name, r5) := r4.span (fun c => !isWsByte c)
      if name.isEmpty then none else
      let (ws2, r6) := r5.span isWsByte
      if ws2.isEmpty then none else
      if r6 = strBytes "hashed" then some name else none

/-- The function `downloadFromMirror` (main module lines 21–43).  The signature check at
line 31 tests `!minisign.verifySignature(...)` without `await`ing the
`async` call, so the branch condition is the negated truthiness of the
`Promise` object itself. -/
def downloadFromMirror (verify : Ed25519Verify) (blake2b : Blake2b512) (net : Network)
    (mirror tarballFilename : String) : Except DlError String :=
  match net mirror tarballFilename with
  | none => .error .download
  | some resp =>
    match parseKey MINISIGN_KEY with
    | .error e => .error (.parse e)
    | .ok key =>
      match parseSignature resp.signatureData with
      | .error e => .error (.parse e)
      | .ok signature =>
        if !(verifySignature verify blake2b key signature resp.tarballData).jsTruthy then
          .error .signatureVerificationFailed
        else
          match trustedCommentFile signature.trusted_comment with
          | none => .error .filenameVerificationFailed
          | some name =>
            if name ≠ strBytes tarballFilename then .error .filenameVerificationFailed
            else .ok resp.tarballPath

/-- The override guard of `downloadTarball` (main module line 47):
`preferredMirror.includes("://ziglang.org/") ||
preferredMirror.startsWith("ziglang.org/")`. -/
def mirrorOverrideForbidden (preferredMirror : String) : Bool :=
  listContains (strBytes preferredMirror) (strBytes "://ziglang.org/")
    || (strBytes "ziglang.org/").isPrefixOf (strBytes preferredMirror)

/-- The mirror loop of `downloadTarball` (main module lines 58–68): try each
candidate, continue on any error, and fall back to the canonical origin once
the list is exhausted. -/
def attemptMirrors (verify : Ed25519Verify) (blake2b : Blake2b512) (net : Network)
    (tarballFilename : String) : List String → Except DlError String
  | [] => downloadFromMirror verify blake2b net CANONICAL tarballFilename
  | m :: rest =>
    match downloadFromMirror verify blake2b net m tarballFilename with
    | .ok p => .ok p
    | .error _ => attemptMirrors verify blake2b net tarballFilename rest

/-- The function `downloadTarball` (main module lines 45–69).  The shuffled mirror list is
a parameter: the source derives it from `mirrors.json` with a
`Math.random`-keyed sort, which is external nondeterminism. -/
def downloadTarball (verify : Ed25519Verify) (blake2b : Blake2b512) (net : Network)
    (preferredMirror : String) (shuffledMirrors : List String) (tarballFilename : String) :
    Except DlError String :=
  if mirrorOverrideForbidden preferredMirror then .error .forbiddenMirrorOverride
  else if preferredMirror ≠ "" then
    downloadFromMirror verify blake2b net preferredMirror tarballFilename
  else attemptMirrors verify blake2b net tarballFilename shuffledMirrors

/-- A restore request against the blob cache: the primary key and the
fallback `restoreKeys`. -/
structure RestoreRequest where
  key : String
  restoreKeys : List String
deriving DecidableEq

/-- The blob-cache restore request issued by `retrieveTarball` (main module
lines 72, 78 and 82): key `setup-zig-tarball-<tarballName>`, and no restore
keys — exact match only. -/
def tarballRestoreRequest (tarballName : String) : RestoreRequest :=
  { key := "setup-zig-tarball-" ++ tarballName, restoreKeys := [] }

/-- The function `retrieveTarball` (main module lines 71–110), with the blob cache and the
download pipeline abstracted.  A cache hit restores straight into the
designated cache path; a miss downloads `tarballName ++ tarballExt`, copies
it to that path and saves it (best effort — a failed save is only logged). -/
def retrieveTarball (restore : RestoreRequest → Option String)
    (download : String → Except DlError String)
    (tarballName tarballExt tarballCachePath : String) : Except DlError String :=
  match restore (tarballRestoreRequest tarballName) with
  | some _ => .ok tarballCachePath
  | none =>
    match download (tarballName ++ tarballExt) with
    | .ok _ => .ok tarballCachePath
    | .error e => .error e

/-! ## `post.js` — size-bounded save of the build-cache directory -/

/-- A file-system tree as `fs.stat`/`fs.readdir` expose it: a regular file
with its byte size, a directory with its entries, or anything else (for
which `totalSize` returns 0). -/
inductive FsEntry
  | file (size : Nat)
  | dir (entries : List FsEntry)
  | other

mutual

/-- The function `totalSize` (`post.js` lines 56–71): recursive byte size. -/
def totalSize : FsEntry → Nat
  | .file n => n
  | .dir es => totalSizeList es
  | .other => 0

/-- Sum of `totalSize` over a directory's entries. -/
def totalSizeList : List FsEntry → Nat
  | [] => 0
  | e :: rest => totalSize e + totalSizeList rest

end

/-- The function `rmDirContents` (`post.js` lines 73–76): remove every entry of the
directory, keeping the directory itself.  (`fs.readdir` on a non-directory
rejects; the post phase only ever passes the build-cache directory.) -/
def rmDirContents : FsEntry → FsEntry
  | .dir _ => .dir []
  | e => e

/-- The state of the build-cache directory at the moment `cache.saveCache` is
called by the post phase (`post.js` lines 22–40): cleared first when the
configured limit (MiB, `0` = unlimited) is nonzero and exceeded. -/
def postSavedDir (root : FsEntry) (limitMiB : Nat) : FsEntry :=
  let size := totalSize root
  let sizeLimit := limitMiB * 1024 * 1024
  if sizeLimit ≠ 0 ∧ size > sizeLimit then rmDirContents root else root

/-- The function `main` of `post.js` (lines 8–54), reduced to its observable effect on the
blob cache: `none` when nothing is saved (caching disabled, or the directory
inaccessible), otherwise the directory state passed to `cache.saveCache`. -/
def postMain (useCache accessible : Bool) (root : FsEntry) (limitMiB : Nat) : Option FsEntry :=
  if useCache then
    if accessible then some (postSavedDir root limitMiB)
    else none
  else none

/-! ## `common.js` — empty-specifier version resolution (`getVersion`,
lines 138–185) -/

/-- The JavaScript regex class `\s` on a character. -/
def isWsChar (c : Char) : Bool :=
  c = ' ' || c = '\t' || c = '\n' || c = '\x0b' || c = '\x0c' || c = '\r'

/-- Strip an expected literal prefix from a character list. -/
def dropLiteralC? (p l : List Char) : Option (List Char) :=
  if p.isPrefixOf l then some (l.drop p.length) else none

/-- The lazy group `(.*?)` followed by `"`: the shortest run of characters up
to a closing quote; `.` does not match line terminators, so a newline before
the quote kills the match at this start position. -/
def takeUntilQuote : List Char → Option (List Char)
  | [] => none
  | c :: rest =>
    if c = '"' then some []
    else if c = '\n' || c = '\r' then none
    else (takeUntilQuote rest).map (c :: ·)

/-- One anchored attempt of `/\.\s*<field>\s*=\s*"(.*?)"/` at the head of
`l`.  Each `\s*` is followed by a non-whitespace literal, so maximal-munch
scanning is equivalent to the regex engine. -/
def zonFieldTryAt (fieldName : List Char) (l : List Char) : Option (List Char) :=
  match l with
  | '.' :: r1 =>
    let r2 := r1.dropWhile isWsChar
    match dropLiteralC? fieldName r2 with
    | none => none
    | some r3 =>
      let r4 := r3.dropWhile isWsChar
      match r4 with
      | '=' :: r5 =>
        let r6 := r5.dropWhile isWsChar
        match r6 with
        | '"' :: r7 => takeUntilQuote r7
        | _ => none
      | _ => none
  | _ => none

/-- Leftmost-match search of an unanchored regex: the first start position
whose anchored attempt succeeds wins. -/
def regexSearch (tryAt : List Char → Option (List Char)) : List Char → Option (List Char)
  | [] => tryAt []
  | l@(_ :: rest) =>
    match tryAt l with
    | some x => some x
    | none => regexSearch tryAt rest

/-- Evaluation of `MACH_ZIG_VERSION_REGEX.exec(zon)` (`common.js` line 138), as capture
group 1 of the first match. -/
def machZigVersionExec (zon : List Char) : Option (List Char) :=
  regexSearch (zonFieldTryAt "mach_zig_version".data) zon

/-- Evaluation of `MINIMUM_ZIG_VERSION_REGEX.exec(zon)` (`common.js` line 139). -/
def minimumZigVersionExec (zon : List Char) : Option (List Char) :=
  regexSearch (zonFieldTryAt "minimum_zig_version".data) zon

/-- How an empty version specifier is resolved further: via the Mach
nominated-version index (a network fetch), verbatim (no network), or by the
latest-release behaviour (a network fetch of the version index). -/
inductive VersionResolution
  | machLookup (name : String)
  | verbatim (v : String)
  | latest
deriving DecidableEq

/-- The empty-specifier branch of `getVersion` (`common.js` lines 148–172):
`manifest` is the content of `build.zig.zon`, or `none` when the read fails.
The Mach nominated field is consulted first; a matched minimum version is
returned verbatim; otherwise resolution falls back to `latest`. -/
def resolveEmptyVersion (manifest : Option String) : VersionResolution :=
  match manifest with
  | none => .latest
  | some zon =>
    match machZigVersionExec zon.data with
    | some name => .machLookup (String.mk name)
    | none =>
      match minimumZigVersionExec zon.data with
      | some v => .verbatim (String.mk v)
      | none => .latest

/-! ## Injectivity of the artifact name / cache key derivation

`getTarballName` concatenates dash-free tokens drawn from two disjoint
vocabularies around the verbatim version string, so the target identity can
be decoded back out of the name.  The decoder below is the left inverse used
to prove the key-derivation injectivity asserted by the specification. -/

/-- No `'-'` occurs in the token. -/
def dashFree (l : List Char) : Bool := l.all (fun c => c ≠ '-')

/-- Split at the first `'-'` (the token before it, the remainder after). -/
def splitDash : List Char → Option (List Char × List Char)
  | [] => none
  | c :: rest =>
    if c = '-' then some ([], rest)
    else
      match splitDash rest with
      | some (a, b) => some (c :: a, b)
      | none => none

/-- Structural decoding of `zig-<tok1>-<tok2>-<version>`. -/
def decodeRaw (s : List Char) : Option (List Char × List Char × List Char) :=
  match s with
  | 'z' :: 'i' :: 'g' :: '-' :: rest =>
    match splitDash rest with
    | some (t1, r1) =>
      match splitDash r1 with
      | some (t2, v) => some (t1, t2, v)
      | none => none
    | none => none
  | _ => none

/-- Which `os.arch()` value produced a given arch token (the `armv7a`
respelling and the endianness suffix both collapse back to their host
arch). -/
def archBack (t : List Char) : Option NodeArch :=
  if t = "arm".data then some .arm
  else if t = "armv7a".data then some .arm
  else if t = "aarch64".data then some .arm64
  else if t = "loongarch64".data then some .loong64
  else if t = "mips".data then some .mips
  else if t = "mipsel".data then some .mipsel
  else if t = "mips64".data then some .mips64
  else if t = "mips64el".data then some .mips64el
  else if t = "powerpc64".data then some .ppc64
  else if t = "powerpc64le".data then some .ppc64
  else if t = "riscv64".data then some .riscv64
  else if t = "s390x".data then some .s390x
  else if t = "x86".data then some .ia32
  else if t = "x86_64".data then some .x64
  else none

/-- Which `os.platform()` value produced a given platform token. -/
def platBack (t : List Char) : Option NodePlatform :=
  if t = "android".data then some .android
  else if t = "freebsd".data then some .freebsd
  else if t = "illumos".data then some .sunos
  else if t = "linux".data then some .linux
  else if t = "macos".data then some .darwin
  else if t = "netbsd".data then some .netbsd
  else if t = "openbsd".data then some .openbsd
  else if t = "windows".data then some .win32
  else none

/-- Full decoding of a tarball name: the raw arch token together with the
host arch that produced it, the raw platform token with its host platform,
and the version.  The arch and platform vocabularies are disjoint, which
disambiguates the two naming schemes. -/
def decodeTarballName (s : List Char) :
    Option (List Char × NodeArch × List Char × NodePlatform × List Char) :=
  match decodeRaw s with
  | none => none
  | some (t1, t2, v) =>
    match archBack t1 with
    | some a =>
      match platBack t2 with
      | some p => some (t1, a, t2, p, v)
      | none => none
    | none =>
      match platBack t1 with
      | some p =>
        match archBack t2 with
        | some a => some (t2, a, t1, p, v)
        | none => none
      | none => none

theorem splitDash_append (t rest : List Char) (h : dashFree t = true) :
    splitDash (t ++ '-' :: rest) = some (t, rest) := by
  induction t with
  | nil => simp [splitDash]
  | cons c cs ih =>
    simp only [dashFree, List.all_cons, Bool.and_eq_true, decide_eq_true_eq] at h
    simp only [dashFree] at ih
    simp [splitDash, h.1, ih h.2]

theorem archName_spec (a : NodeArch) (e : Endianness) (v : String) :
    dashFree (archName a e v).data = true ∧ archBack (archName a e v).data = some a ∧
    platBack (archName a e v).data = none := by
  cases hv : versionLessThan v "0.15.1" <;> cases a <;> cases e <;>
    simp only [archName, archNameEndianFix, archNameLegacyFix, archTable, hv] <;> decide

theorem platformTable_spec (p : NodePlatform) :
    dashFree (platformTable p).data = true ∧ platBack (platformTable p).data = some p ∧
    archBack (platformTable p).data = none := by
  cases p <;> decide

theorem decodeRaw_mk (t1 t2 v : String) (h1 : dashFree t1.data = true)
    (h2 : dashFree t2.data = true) :
    decodeRaw ("zig-" ++ t1 ++ "-" ++ t2 ++ "-" ++ v).data = some (t1.data, t2.data, v.data) := by
  have hdata : ("zig-" ++ t1 ++ "-" ++ t2 ++ "-" ++ v).data
      = 'z' :: 'i' :: 'g' :: '-' :: (t1.data ++ '-' :: (t2.data ++ '-' :: v.data)) := by
    simp [String.data_append]
  rw [hdata]
  simp only [decodeRaw, splitDash_append _ _ h1, splitDash_append _ _ h2]

theorem decode_getTarballName (a : NodeArch) (e : Endianness) (p : NodePlatform) (v : String) :
    decodeTarballName (getTarballName a e p v).data
      = some ((archName a e v).data, a, (platformTable p).data, p, v.data) := by
  obtain ⟨hd, hab, hpb⟩ := archName_spec a e v
  obtain ⟨hd', hpb', hab'⟩ := platformTable_spec p
  simp only [getTarballName]
  split
  · rw [show decodeTarballName = fun s => decodeTarballName s from rfl]
    simp only [decodeTarballName, decodeRaw_mk _ _ _ hd' hd, hab', hpb', hab, hpb]
  · simp only [decodeTarballName, decodeRaw_mk _ _ _ hd hd', hab, hpb, hab', hpb']

/-! ## Claims -/

/-- An ed25519 oracle that rejects every signature: every artifact is
invalidly signed under it. -/
def oracleReject : Ed25519Verify := fun _ _ _ => false

/-- A stand-in hash primitive (its value is irrelevant to every claim). -/
def blake2bId : Blake2b512 := fun content => content

/-- The parsed hardcoded trust anchor. -/
def anchorKey : PubKey := (parseKey MINISIGN_KEY).toOption.getD ⟨[], []⟩

/-- A syntactically valid signature container whose trusted comment names
the artifact `zig-x86_64-linux-0.14.1.tar.xz`; its signature-info section is
twelve arbitrary bytes, so its key id cannot match the trust anchor. -/
def c1SignatureData : List Nat :=
  strBytes "untrusted comment: c\nQUJDREVGR0hJSktM\ntrusted comment: timestamp:1 file:zig-x86_64-linux-0.14.1.tar.xz hashed\nQUJD\n"

/-- A mirror that serves that signature next to a tampered payload. -/
def c1Network : Network := fun mirror filename =>
  if mirror = "https://mirror.example" ∧ filename = "zig-x86_64-linux-0.14.1.tar.xz" then
    some { tarballPath := "/tmp/tarball", signatureData := c1SignatureData,
           tarballData := strBytes "tampered payload" }
  else none

/-- C1, evaluated at the failing input: under an ed25519 oracle that rejects
everything, `verifySignature` resolves to `false` for the served artifact —
yet `downloadFromMirror` returns the tarball path, because line 31 of the
main module tests the truthiness of the un-`await`ed `Promise` instead of
its value.  The claim says an invalidly signed artifact is never accepted. -/
theorem c1_invalid_signature_accepted :
    (parseSignature c1SignatureData).toOption.map
        (fun r => (verifySignature oracleReject blake2bId anchorKey r
          (strBytes "tampered payload")).val) = some false ∧
    downloadFromMirror oracleReject blake2bId c1Network "https://mirror.example"
        "zig-x86_64-linux-0.14.1.tar.xz" = .ok "/tmp/tarball" := by decide

/-- C2, evaluated at the failing input: the dev build `0.15.0-dev.1+aa` does
not order before the release `0.15.0` — `versionLessThan` returns `false`
both ways, because `parseVersion` reads `match[0..3]` instead of capture
groups 1–4 (so `dev` is the patch number for dev builds and releases alike)
and `versionLessThan` compares `cur.dev` instead of its `Infinity`-adjusted
`cur_dev`.  The claim (and the source's own comments) say the first
comparison yields `true`. -/
theorem c2_dev_before_release_eval :
    versionLessThan "0.15.0-dev.1+aa" "0.15.0" = false ∧
    versionLessThan "0.15.0" "0.15.0-dev.1+aa" = false := by decide

/-- C3, evaluated at the claim's four versions: `0.14.0` gets the legacy
OS-before-arch name and `0.14.1` / `0.15.0-dev.631+9a3540d61` the new
arch-before-OS name as claimed, but `0.15.0-dev.630+9a3540d61` — just below
the cutover dev-index — also gets the new name, because the broken version
order of C2 makes `versionLessThan("0.15.0-dev.630+...",
"0.15.0-dev.631+...")` return `false`. -/
theorem c3_naming_cutover_eval :
    getTarballName .x64 .LE .linux "0.14.0" = "zig-linux-x86_64-0.14.0" ∧
    getTarballName .x64 .LE .linux "0.14.1" = "zig-x86_64-linux-0.14.1" ∧
    getTarballName .x64 .LE .linux "0.15.0-dev.631+9a3540d61"
      = "zig-x86_64-linux-0.15.0-dev.631+9a3540d61" ∧
    getTarballName .x64 .LE .linux "0.15.0-dev.630+9a3540d61"
      = "zig-x86_64-linux-0.15.0-dev.630+9a3540d61" := by decide

/-- A container that is well-formed except for three trailing bytes `XYZ`
after the global-signature line. -/
def sigWithTrailingBytes : List Nat :=
  strBytes "untrusted comment: c\nQUJDREVGR0hJSktM\ntrusted comment: t\nQUJD\nXYZ"

/-- A perfectly well-formed container (trailing newline, nothing after)
whose global-signature line is longer than its signature-info line. -/
def sigLongGlobal : List Nat :=
  strBytes "untrusted comment: c\nQUJD\ntrusted comment: t\nQUJDREVGR0hJSktM\n"

/-- C4, evaluated at the failing inputs: `parseSignature` accepts a
container with trailing bytes after the global signature, and rejects a
well-formed one whose global-signature line is longer than its
signature-info line — line 62 of `minisign.js` advances by
`sig_info_end + 1` instead of `global_sig_end + 1`, so the final
unconsumed-bytes check measures the wrong remainder in both directions.
The claim says parsing succeeds exactly on well-formed containers and
always fails when trailing bytes remain. -/
theorem c4_trailing_bytes_eval :
    (parseSignature sigWithTrailingBytes).isOk = true ∧
    parseSignature sigLongGlobal = .error "invalid minisign signature: trailing bytes" := by
  decide

/-- C5: whenever a mirror's signature file parses but its trusted comment
does not carry `timestamp:<digits> file:<name> hashed` with `<name>` exactly
the requested artifact filename, `downloadFromMirror` throws the filename
verification error; and in the unforced path, `downloadTarball` then
behaves as if that mirror were not in the candidate list — it continues
with the remaining candidates. -/
theorem c5_filename_mismatch_rejected
    (verify : Ed25519Verify) (blake2b : Blake2b512) (net : Network)
    (mirror filename : String) (resp : MirrorResponse) (sig : SigRecord)
    (hnet : net mirror filename = some resp)
    (hsig : parseSignature resp.signatureData = Except.ok sig)
    (hname : trustedCommentFile sig.trusted_comment ≠ some (strBytes filename)) :
    downloadFromMirror verify blake2b net mirror filename
      = .error .filenameVerificationFailed ∧
    ∀ rest, downloadTarball verify blake2b net "" (mirror :: rest) filename
      = downloadTarball verify blake2b net "" rest filename := by
  have hk : parseKey MINISIGN_KEY = .ok anchorKey := by decide
  have hdl : downloadFromMirror verify blake2b net mirror filename
      = .error .filenameVerificationFailed := by
    simp only [downloadFromMirror, hnet, hk, hsig, JsPromise.jsTruthy, Bool.not_true,
      Bool.false_eq_true, if_false]
    cases hm : trustedCommentFile sig.trusted_comment with
    | none => rfl
    | some name =>
      have : name ≠ strBytes filename := by
        intro h; exact hname (by rw [hm, h])
      simp [this]
  refine ⟨hdl, fun rest => ?_⟩
  have hguard : mirrorOverrideForbidden "" = false := by decide
  simp only [downloadTarball, hguard, Bool.false_eq_true, if_false, ne_eq,
    not_true_eq_false, attemptMirrors, hdl]

/-- A signature container whose trusted comment names `other.tar.xz`. -/
def c5SignatureData : List Nat :=
  strBytes "untrusted comment: c\nQUJDREVGR0hJSktM\ntrusted comment: timestamp:1 file:other.tar.xz hashed\nQUJD\n"

/-- The record `parseSignature` produces for that container. -/
def c5Record : SigRecord :=
  { algorithm := strBytes "AB", key_id := strBytes "CDEFGHIJ", signature := strBytes "KL",
    trusted_comment := strBytes "timestamp:1 file:other.tar.xz hashed",
    global_signature := strBytes "ABC" }

/-- A mirror serving that mislabeled artifact for `good.tar.xz`. -/
def c5Network : Network := fun m f =>
  if m = "https://m1.example" ∧ f = "good.tar.xz" then
    some { tarballPath := "/tmp/x", signatureData := c5SignatureData,
           tarballData := strBytes "data" }
  else none

/-- Witness for C5 at a concrete mislabeling mirror. -/
theorem c5_witness :
    c5Network "https://m1.example" "good.tar.xz"
      = some { tarballPath := "/tmp/x", signatureData := c5SignatureData,
               tarballData := strBytes "data" } ∧
    parseSignature c5SignatureData = Except.ok c5Record ∧
    trustedCommentFile c5Record.trusted_comment ≠ some (strBytes "good.tar.xz") ∧
    downloadFromMirror oracleReject blake2bId c5Network "https://m1.example" "good.tar.xz"
      = .error .filenameVerificationFailed ∧
    downloadTarball oracleReject blake2bId c5Network "" ["https://m1.example"] "good.tar.xz"
      = downloadTarball oracleReject blake2bId c5Network "" [] "good.tar.xz" := by
  have h := c5_filename_mismatch_rejected oracleReject blake2bId c5Network
    "https://m1.example" "good.tar.xz"
    { tarballPath := "/tmp/x", signatureData := c5SignatureData, tarballData := strBytes "data" }
    c5Record (by decide) (by decide) (by decide)
  exact ⟨by decide, by decide, by decide, h.1, h.2 []⟩

/-- A network on which every fetch fails. -/
def netDown : Network := fun _ _ => none

/-- Counterexample to C6: the override `https://ziglang.org` — the canonical
origin itself, with no trailing slash — is not rejected as a configuration
error; `downloadTarball` goes on to attempt a download from it (failing
here with a download error because the network is down). -/
theorem c6_counterexample_bare_origin :
    downloadTarball oracleReject blake2bId netDown "https://ziglang.org" [] "any.tar.xz"
      = .error .download ∧
    DlError.download ≠ DlError.forbiddenMirrorOverride := by decide

/-- C6 as amended: the override is rejected (before any download is
attempted — the result does not depend on the network) precisely when it
contains `://ziglang.org/` or starts with `ziglang.org/`; every other
non-empty override is fetched exclusively, any failure propagating with no
fallback to the mirror list or the canonical origin. -/
theorem c6_amended_override_guard
    (verify : Ed25519Verify) (blake2b : Blake2b512) (net : Network)
    (pm : String) (ms : List String) (f : String) :
    (mirrorOverrideForbidden pm = true →
      downloadTarball verify blake2b net pm ms f = .error .forbiddenMirrorOverride) ∧
    (mirrorOverrideForbidden pm = false → pm ≠ "" →
      downloadTarball verify blake2b net pm ms f
        = downloadFromMirror verify blake2b net pm f) := by
  constructor
  · intro h; simp [downloadTarball, h]
  · intro h hne; simp [downloadTarball, h, hne]

/-- Witness for C6 as amended: a slash-bearing canonical URL is rejected; an
ordinary mirror override is fetched exclusively. -/
theorem c6_witness :
    mirrorOverrideForbidden "https://ziglang.org/builds" = true ∧
    downloadTarball oracleReject blake2bId netDown "https://ziglang.org/builds" [] "a"
      = .error .forbiddenMirrorOverride ∧
    mirrorOverrideForbidden "https://mirror.example" = false ∧
    downloadTarball oracleReject blake2bId netDown "https://mirror.example" [] "a"
      = downloadFromMirror oracleReject blake2bId netDown "https://mirror.example" "a" := by
  refine ⟨by decide, ?_, by decide, ?_⟩
  · exact (c6_amended_override_guard oracleReject blake2bId netDown
      "https://ziglang.org/builds" [] "a").1 (by decide)
  · exact (c6_amended_override_guard oracleReject blake2bId netDown
      "https://mirror.example" [] "a").2 (by decide) (by decide)

/-- C7: the tarball restore request uses the exact key
`setup-zig-tarball-<artifactBaseName>` with an empty fallback list;
`retrieveTarball`'s cache interaction goes through exactly that request;
and the key derivation is injective over the target identity — two
identities (on hosts of any endiannesses) that share an artifact cache key
have the same resolved version, the same host platform (hence OS token),
the same host architecture, and the same emitted architecture token.
Contrapositively, identities differing in version, OS token or architecture
token — including `powerpc64` vs `powerpc64le` — never share a key. -/
theorem c7_tarball_cache_exact_and_injective :
    (∀ name : String, tarballRestoreRequest name
        = { key := "setup-zig-tarball-" ++ name, restoreKeys := [] }) ∧
    (∀ (restore1 restore2 : RestoreRequest → Option String)
        (download : String → Except DlError String) (name ext path : String),
      restore1 (tarballRestoreRequest name) = restore2 (tarballRestoreRequest name) →
      retrieveTarball restore1 download name ext path
        = retrieveTarball restore2 download name ext path) ∧
    (∀ (e e' : Endianness) (a a' : NodeArch) (p p' : NodePlatform) (v v' : String),
      (tarballRestoreRequest (getTarballName a e p v)).key
        = (tarballRestoreRequest (getTarballName a' e' p' v')).key →
      a = a' ∧ p = p' ∧ v = v' ∧ archName a e v = archName a' e' v') := by
  refine ⟨fun name => rfl, ?_, ?_⟩
  · intro restore1 restore2 download name ext path h
    simp only [retrieveTarball, h]
  · intro e e' a a' p p' v v' h
    simp only [tarballRestoreRequest] at h
    have hd := congrArg String.data h
    rw [String.data_append, String.data_append] at hd
    have hn : (getTarballName a e p v).data = (getTarballName a' e' p' v').data :=
      List.append_cancel_left hd
    have h1 := decode_getTarballName a e p v
    have h2 := decode_getTarballName a' e' p' v'
    rw [hn, h2] at h1
    have h3 : ((archName a' e' v').data, a', (platformTable p').data, p', v'.data)
        = ((archName a e v).data, a, (platformTable p).data, p, v.data) :=
      Option.some.inj h1
    have htok : (archName a' e' v').data = (archName a e v).data := congrArg Prod.fst h3
    have ha : a' = a := congrArg (fun t => t.2.1) h3
    have hp : p' = p := congrArg (fun t => t.2.2.2.1) h3
    have hv : v'.data = v.data := congrArg (fun t => t.2.2.2.2) h3
    exact ⟨ha.symm, hp.symm, (String.ext hv).symm, (String.ext htok).symm⟩

/-- Witness for C7, instantiated across the two endiannesses (on x64 the
key does not depend on endianness, so the hypothesis is satisfiable with
`e ≠ e'`). -/
theorem c7_witness :
    tarballRestoreRequest (getTarballName .x64 .BE .linux "0.14.1")
      = { key := "setup-zig-tarball-" ++ getTarballName .x64 .BE .linux "0.14.1",
          restoreKeys := [] } ∧
    (NodeArch.x64 = NodeArch.x64 ∧ NodePlatform.linux = NodePlatform.linux ∧
      ("0.14.1" : String) = "0.14.1" ∧
      archName .x64 .BE "0.14.1" = archName .x64 .LE "0.14.1") ∧
    retrieveTarball (fun _ => none) (fun _ => .error .download) "n" ".tar.xz" "/tmp/p"
      = retrieveTarball (fun _ => none) (fun _ => .error .download) "n" ".tar.xz" "/tmp/p" :=
  ⟨c7_tarball_cache_exact_and_injective.1 _,
   c7_tarball_cache_exact_and_injective.2.2 .BE .LE .x64 .x64 .linux .linux "0.14.1" "0.14.1"
     (by decide),
   c7_tarball_cache_exact_and_injective.2.1 (fun _ => none) (fun _ => none)
     (fun _ => .error .download) "n" ".tar.xz" "/tmp/p" rfl⟩

/-- C8: in the post phase (cache enabled, directory accessible), a nonzero
MiB limit that the recursively measured size exceeds causes the directory's
contents — not the directory itself — to be deleted before the save is
issued, so an empty directory is what reaches `cache.saveCache`; with a
zero limit or a size within the limit, the directory is saved unmodified. -/
theorem c8_build_cache_size_limit (es : List FsEntry) (limitMiB : Nat) :
    (limitMiB ≠ 0 → totalSize (.dir es) > limitMiB * 1024 * 1024 →
      postMain true true (.dir es) limitMiB = some (FsEntry.dir [])) ∧
    (limitMiB = 0 ∨ totalSize (.dir es) ≤ limitMiB * 1024 * 1024 →
      postMain true true (.dir es) limitMiB = some (FsEntry.dir es)) := by
  constructor
  · intro h0 hgt
    have hlim : limitMiB * 1024 * 1024 ≠ 0 :=
      Nat.mul_ne_zero (Nat.mul_ne_zero h0 (by norm_num)) (by norm_num)
    simp [postMain, postSavedDir, rmDirContents, hlim, hgt]
  · intro h
    rcases h with h0 | hle
    · simp [postMain, postSavedDir, h0]
    · have : ¬ totalSize (.dir es) > limitMiB * 1024 * 1024 := not_lt.mpr hle
      simp [postMain, postSavedDir, this]

/-- Witness for C8 at the specification's end-to-end scenario: a 3000 MiB
directory against a 2048 MiB limit is cleared before saving, and the same
directory with limit 0 is saved unmodified. -/
theorem c8_witness :
    (2048 ≠ 0 ∧ totalSize (.dir [.file (3000 * 1024 * 1024)]) > 2048 * 1024 * 1024) ∧
    postMain true true (.dir [.file (3000 * 1024 * 1024)]) 2048 = some (FsEntry.dir []) ∧
    postMain true true (.dir [.file (3000 * 1024 * 1024)]) 0
      = some (FsEntry.dir [.file (3000 * 1024 * 1024)]) :=
  ⟨⟨by decide, by decide⟩,
   (c8_build_cache_size_limit [.file (3000 * 1024 * 1024)] 2048).1 (by decide) (by decide),
   (c8_build_cache_size_limit [.file (3000 * 1024 * 1024)] 0).2 (Or.inl rfl)⟩

/-- Counterexample to C9: a manifest line matching the very patterns the
claim quotes — `minimum_version = "0.13.0"` (or `nominated_version = ...`)
— is not recognised: resolution falls back to the latest-release behaviour
instead of returning `0.13.0` verbatim, because the source's regexes look
for the ZON fields `.mach_zig_version` and `.minimum_zig_version`. -/
theorem c9_counterexample_field_names :
    resolveEmptyVersion (some "minimum_version = \"0.13.0\"") = .latest ∧
    resolveEmptyVersion (some "nominated_version = \"mach-latest\"") = .latest ∧
    VersionResolution.latest ≠ VersionResolution.verbatim "0.13.0" := by decide

/-- C9 as amended: with an empty specifier the manifest is scanned for
`.mach_zig_version = "<value>"` first (resolved as a Mach nominated
version) and only in its absence for `.minimum_zig_version = "<value>"`,
whose value is returned verbatim with no network fetch; an unreadable
manifest or no matching field falls back to the latest-release behaviour. -/
theorem c9_amended_manifest_fields :
    resolveEmptyVersion none = .latest ∧
    (∀ (zon : String) (name : List Char), machZigVersionExec zon.data = some name →
      resolveEmptyVersion (some zon) = .machLookup (String.mk name)) ∧
    (∀ (zon : String) (v : List Char), machZigVersionExec zon.data = none →
      minimumZigVersionExec zon.data = some v →
      resolveEmptyVersion (some zon) = .verbatim (String.mk v)) ∧
    (∀ zon : String, machZigVersionExec zon.data = none →
      minimumZigVersionExec zon.data = none →
      resolveEmptyVersion (some zon) = .latest) ∧
    resolveEmptyVersion (some ".minimum_zig_version = \"0.13.0\"") = .verbatim "0.13.0" ∧
    resolveEmptyVersion
        (some ".mach_zig_version = \"mach-latest\" .minimum_zig_version = \"0.13.0\"")
      = .machLookup "mach-latest" := by
  refine ⟨rfl, ?_, ?_, ?_, by decide, by decide⟩
  · intro zon name h; simp [resolveEmptyVersion, h]
  · intro zon v h1 h2; simp [resolveEmptyVersion, h1, h2]
  · intro zon h1 h2; simp [resolveEmptyVersion, h1, h2]

/-- Witness for C9 as amended, at the specification's scenario 2 manifest
content (spelled with the field name the source actually scans for). -/
theorem c9_witness :
    machZigVersionExec ".minimum_zig_version = \"0.13.0\"".data = none ∧
    minimumZigVersionExec ".minimum_zig_version = \"0.13.0\"".data = some "0.13.0".data ∧
    resolveEmptyVersion (some ".minimum_zig_version = \"0.13.0\"")
      = .verbatim (String.mk "0.13.0".data) :=
  ⟨by decide, by decide,
   c9_amended_manifest_fields.2.2.1 ".minimum_zig_version = \"0.13.0\"" "0.13.0".data
     (by decide) (by decide)⟩

/-- C10: a resolved version that `parseVersion` rejects compares as not less
than anything (in either argument position), so `getTarballName` uses the
new arch-before-OS field ordering and the post-cutover `arm` spelling for
every such version. -/
theorem c10_unparseable_version_new_scheme (v : String) (h : parseVersion v = none) :
    (∀ w, versionLessThan v w = false ∧ versionLessThan w v = false) ∧
    (∀ (a : NodeArch) (e : Endianness) (p : NodePlatform),
      getTarballName a e p v = "zig-" ++ archName a e v ++ "-" ++ platformTable p ++ "-" ++ v) ∧
    (∀ e, archName NodeArch.arm e v = "arm") := by
  have hlt : ∀ w, versionLessThan v w = false ∧ versionLessThan w v = false := by
    intro w
    constructor
    · cases hw : parseVersion w <;> simp [versionLessThan, h, hw]
    · cases hw : parseVersion w <;> simp [versionLessThan, h, hw]
  have harm : ∀ e, archName NodeArch.arm e v = "arm" := by
    intro e
    have hfix : archNameEndianFix (archTable NodeArch.arm) e = "arm" := by
      cases e <;> simp [archNameEndianFix, archTable]
    simp [archName, hfix, archNameLegacyFix, (hlt "0.15.1").1]
  refine ⟨hlt, ?_, harm⟩
  intro a e p
  simp [getTarballName, (hlt "0.15.0-dev.631+9a3540d61").1]

/-- Witness for C10 at the verbatim specifier `0.14`. -/
theorem c10_witness :
    parseVersion "0.14" = none ∧
    versionLessThan "0.14" "0.15.0" = false ∧
    getTarballName .arm .LE .linux "0.14"
      = "zig-" ++ archName .arm .LE "0.14" ++ "-" ++ platformTable .linux ++ "-" ++ "0.14" ∧
    archName NodeArch.arm .LE "0.14" = "arm" :=
  ⟨by decide,
   ((c10_unparseable_version_new_scheme "0.14" (by decide)).1 "0.15.0").1,
   (c10_unparseable_version_new_scheme "0.14" (by decide)).2.1 .arm .LE .linux,
   (c10_unparseable_version_new_scheme "0.14" (by decide)).2.2 .LE⟩
